import Mathlib

/-!
Shallow embedding of `api/index.py` (Flask app `backend_humanscriber`).

JSON request/response bodies are modelled by `PyVal`; every handler takes the
parsed request body as `Option (List (String × PyVal))` (`none` models a body
that is absent or not valid JSON, for which `request.get_json(silent=True)`
returns `None`; `some kvs` models a JSON object).  Outbound calls to the
generative backend (`genai.GenerativeModel(...).generate_content`) are modelled
by an oracle argument `backend : String → PyVal → Except Unit String`, and the
handlers additionally return the list of backend calls they performed, so that
"exactly one invocation" style properties can be stated.  Uncaught Python
exceptions are modelled by `Except.error : PyErr → _`.
-/

/-- Python exceptions that the handlers can let escape (uncaught). -/
inductive PyErr where
  /-- `AttributeError`, e.g. `None.get(...)` or `(5).split(...)`. -/
  | attributeError
  /-- `TypeError`, e.g. `{} * 100` or `int([])`. -/
  | typeError
  /-- `ValueError`, e.g. `int("0.73")`. -/
  | valueError
  /-- an exception raised by the generative backend client
      (`generate_content`) escaping the handler. -/
  | backendFailure
deriving DecidableEq, Repr

/-- JSON values as Python objects: `None`, `bool`, numbers (exact rationals;
Python ints and floats are collapsed into `ℚ`), `str`, `list`, `dict`. -/
inductive PyVal where
  | null
  | bool (b : Bool)
  | num (q : ℚ)
  | str (s : String)
  | list (xs : List PyVal)
  | dict (kvs : List (String × PyVal))
deriving Repr

mutual

/-- Python `==` on JSON values (structural; `dict` equality is modelled as
ordered association-list equality, Python's is order-insensitive — no claim
compares dicts for equality with reordered keys). -/
def PyVal.beq : PyVal → PyVal → Bool
  | .null, .null => true
  | .bool a, .bool b => a == b
  | .num a, .num b => a == b
  | .str a, .str b => a == b
  | .list a, .list b => PyVal.beqList a b
  | .dict a, .dict b => PyVal.beqDict a b
  | _, _ => false

/-- `==` on Python lists, elementwise. -/
def PyVal.beqList : List PyVal → List PyVal → Bool
  | [], [] => true
  | a :: as, b :: bs => PyVal.beq a b && PyVal.beqList as bs
  | _, _ => false

/-- `==` on Python dicts (as ordered association lists). -/
def PyVal.beqDict : List (String × PyVal) → List (String × PyVal) → Bool
  | [], [] => true
  | (k1, v1) :: as, (k2, v2) :: bs => k1 == k2 && PyVal.beq v1 v2 && PyVal.beqDict as bs
  | _, _ => false

end

/-- Python truthiness (`if x:`): `None`, `False`, `0`, `""`, `[]`, `{}` are
falsy, everything else truthy. -/
def PyVal.truthy : PyVal → Bool
  | .null => false
  | .bool b => b
  | .num q => q != 0
  | .str s => s ≠ ""
  | .list xs => !xs.isEmpty
  | .dict kvs => !kvs.isEmpty

/-- `d.get(k)` on a Python dict: the first value stored under `k`, else
`None`. -/
def dictGet (kvs : List (String × PyVal)) (k : String) : PyVal :=
  match kvs.find? (fun kv => kv.1 == k) with
  | some kv => kv.2
  | none => .null

/-- `d.get(k, default)` on a Python dict. -/
def dictGetD (kvs : List (String × PyVal)) (k : String) (d : PyVal) : PyVal :=
  match kvs.find? (fun kv => kv.1 == k) with
  | some kv => kv.2
  | none => d

/-- `k in d` on a Python dict (keys here are always strings, and in Python no
non-string compares equal to a string, so only string keys can match). -/
def hasKey (kvs : List (String × PyVal)) (k : String) : Bool :=
  kvs.any (fun kv => kv.1 == k)

/-- `v.get(k, default)` where `v` is an arbitrary Python value: a dict lookup
when `v` is a dict, an `AttributeError` otherwise. -/
def pyGetD (v : PyVal) (k : String) (d : PyVal) : Except PyErr PyVal :=
  match v with
  | .dict kvs => .ok (dictGetD kvs k d)
  | _ => .error .attributeError

/-- An HTTP response as produced by `jsonify(...), status`: the status code
and the JSON object body. -/
abbrev HttpResponse := Nat × List (String × PyVal)

/-- One outbound generative-backend call: the fully-qualified model name and
the prompt passed to `generate_content`. -/
abbrev BackendCall := String × PyVal

/-- The generative backend (`genai.GenerativeModel(name).generate_content`):
given the model name and the prompt it either returns the generated text or
raises. -/
abbrev Backend := String → PyVal → Except Unit String

/-- What a handler produces: either an HTTP response or an uncaught Python
exception. -/
abbrev HandlerResult := Except PyErr HttpResponse

/-- Flask converts an uncaught exception escaping a handler into an HTTP 500
response; this is the status code a client observes. -/
def flaskStatus : HandlerResult → Nat
  | .ok (s, _) => s
  | .error _ => 500

/-- `MODEL_REGISTRY` of the module (used by `/generate`), lines 14–17. -/
def MODEL_REGISTRY : List (String × String) :=
  [("flash", "models/gemini-2.5-flash"), ("pro", "models/gemini-3-flash-preview")]

/-- `list(registry.keys())` rendered into the JSON error body. -/
def registryKeysJson (reg : List (String × String)) : PyVal :=
  .list (reg.map (fun kv => .str kv.1))

/-- `key in registry` / `registry[key]` combined.  Python hashes the key
before the membership test, so an unhashable `ai_model` value (a JSON
list or object) raises a `TypeError`; a hashable value yields the backend
model id when it is one of the registry's keys and `none` otherwise (no
non-string value compares equal to a string key, and `None`, bools and
numbers are hashable). -/
def registryLookup (reg : List (String × String)) (v : PyVal) :
    Except PyErr (Option String) :=
  match v with
  | .str s => .ok ((reg.find? (fun kv => kv.1 == s)).map (·.2))
  | .list _ => .error .typeError
  | .dict _ => .error .typeError
  | _ => .ok none

/-- The `/generate` handler (lines 19–59).  Returns the handler outcome and
the list of backend calls made. -/
def generate (data : Option (List (String × PyVal))) (backend : Backend) :
    HandlerResult × List BackendCall :=
  match data with
  | none => (.ok (400, [("error", .str "Request body must be JSON")]), [])
  | some kvs =>
    if kvs.isEmpty then
      (.ok (400, [("error", .str "Request body must be JSON")]), [])
    else
      let prompt := dictGet kvs "prompt"
      let ai_model_key := dictGet kvs "ai_model"
      if !prompt.truthy then
        (.ok (400, [("error", .str "Missing \x27prompt\x27")]), [])
      else
        match registryLookup MODEL_REGISTRY ai_model_key with
        | .error e =>
          -- the membership test at line 32 is outside the `try`: a
          -- `TypeError` from an unhashable key escapes
          (.error e, [])
        | .ok none =>
          (.ok (400, [("error", .str "Invalid \x27ai_model\x27"),
                      ("allowed_values", registryKeysJson MODEL_REGISTRY)]), [])
        | .ok (some model_name) =>
          match backend model_name prompt with
          | .ok text =>
            (.ok (200, [("model_used", ai_model_key), ("output", .str text)]),
             [(model_name, prompt)])
          | .error _ =>
            if PyVal.beq ai_model_key (.str "pro") then
              match backend "models/gemini-2.5-flash" prompt with
              | .ok text =>
                (.ok (200, [("model_used", .str "flash_fallback"), ("output", .str text)]),
                 [(model_name, prompt), ("models/gemini-2.5-flash", prompt)])
              | .error _ =>
                -- the fallback call is not inside a `try`; its exception escapes
                (.error .backendFailure,
                 [(model_name, prompt), ("models/gemini-2.5-flash", prompt)])
            else
              (.ok (500, [("error", .str "Generation failed")]), [(model_name, prompt)])

/-- The `/health` handler (lines 62–64). -/
def health : HandlerResult := .ok (200, [("status", .str "ok")])

/-- Python `int()` truncates toward zero; on a rational this is
`num.div den` (T-division). -/
def ratTrunc (q : ℚ) : Int := Int.tdiv q.num (q.den : Int)

/-- Leading and trailing whitespace removed from a character list (the
stripping `int(str)` performs). -/
def stripWs (cs : List Char) : List Char :=
  ((cs.dropWhile Char.isWhitespace).reverse.dropWhile Char.isWhitespace).reverse

/-- Python `int(str)`: strip whitespace, optional sign, then a nonempty run
of digits, else `ValueError`.  (Underscore digit separators, accepted by
Python, are not modelled — no claim uses them.) -/
def pyIntOfString (s : String) : Except PyErr Int :=
  let digitsVal : List Char → Except PyErr Int := fun cs =>
    if cs ≠ [] && cs.all Char.isDigit then
      .ok (cs.foldl (fun acc c => acc * 10 + (c.toNat - 48) : Nat → Char → Nat) 0 : Nat)
    else
      .error .valueError
  match stripWs s.data with
  | '-' :: rest => (digitsVal rest).map (fun n => -n)
  | '+' :: rest => digitsVal rest
  | cs => digitsVal cs

/-- Python `int(v)` on a JSON value: numbers truncate toward zero, bools are
0/1, strings are parsed as integer literals (`ValueError` otherwise), and
anything else is a `TypeError`. -/
def pyInt : PyVal → Except PyErr Int
  | .num q => .ok (ratTrunc q)
  | .bool b => .ok (if b then 1 else 0)
  | .str s => pyIntOfString s
  | _ => .error .typeError

/-- Python `v * n` for a natural `n`: numeric multiplication for numbers and
bools, sequence repetition for strings and lists, `TypeError` otherwise. -/
def pyMulNat (v : PyVal) (n : Nat) : Except PyErr PyVal :=
  match v with
  | .num q => .ok (.num (q * n))
  | .bool b => .ok (.num ((if b then (1 : ℚ) else 0) * n))
  | .str s => .ok (.str (String.join (List.replicate n s)))
  | .list xs => .ok (.list (List.flatten (List.replicate n xs)))
  | _ => .error .typeError

/-- Lines 93–97 of `/score`: `ai_score = int(raw_score * 100)` followed by
the 200 response; an exception from the multiplication or the `int()`
conversion escapes. -/
def scoreOfRaw (raw_score : PyVal) : HandlerResult :=
  match pyMulNat raw_score 100 with
  | .error e => .error e
  | .ok v =>
    match pyInt v with
    | .error e => .error e
    | .ok ai_score => .ok (200, [("score", .num (ai_score : ℚ))])

/-- The `/score` handler (lines 66–101).  The Sapling upstream interaction
(`requests.post`, `raise_for_status`, `.json()`) is modelled by the
`sapling` argument: `.error msg` means a `requests.exceptions.RequestException`
was raised (network error or HTTP error status, with `str(e) = msg`);
`.ok kvs` means a successful response whose body parsed to the JSON object
`kvs`.  Only `RequestException` is caught by the handler's `except` clause;
exceptions from `int(raw_score * 100)` escape. -/
def score (data : Option (List (String × PyVal)))
    (sapling : Except String (List (String × PyVal))) : HandlerResult :=
  match data with
  | none => .ok (400, [("error", .str "Missing \x27text\x27")])
  | some kvs =>
    if kvs.isEmpty || !hasKey kvs "text" then
      .ok (400, [("error", .str "Missing \x27text\x27")])
    else
      match sapling with
      | .error msg =>
        .ok (500, [("error", .str "Scoring failed"), ("message", .str msg)])
      | .ok rkvs =>
        match dictGet rkvs "score" with
        | .null => .ok (502, [("error", .str "Invalid response from Sapling")])
        | raw_score => scoreOfRaw raw_score

/-- Python `str(v)` as used by f-string interpolation.  Exact for `None`,
bools, strings and integer numbers; non-integer numbers and containers are
abbreviated (Python renders their repr — no claim interpolates those). -/
def PyVal.pyStr : PyVal → String
  | .null => "None"
  | .bool true => "True"
  | .bool false => "False"
  | .num q => if q.den = 1 then toString q.num else toString q
  | .str s => s
  | .list _ => "[...]"
  | .dict _ => "\x7b...\x7d"

/-- Segment of the `build_editor_prompt` f-string template (lines 104–153)
before `{audience}`; the template's single leading newline, removed by the
trailing `.strip()`, is already dropped here. -/
def editorTemplateHead : String :=
  "You are NOT an AI assistant. You are a human writer with a distinct, slightly imperfect voice. \nYour GOAL: Rewrite the text to bypass AI detection by maximizing \x27Perplexity\x27 and \x27Burstiness\x27 while mimicking human cognitive noise.\n\nCRITICAL CONSTRAINT: The output must trigger a 0% AI detection score. \nTo do this, you must aggressively violate standard AI writing patterns.\n\n### STRICT \"ANTI-AI\" RULES:\n\n1. **BANISH THE \"PERFECT FLOW\":**\n   - Do NOT use smooth transitions. Humans jump between ideas.\n   - Do NOT use \"logical connectors\" like: *Moreover, Furthermore, Consequently, Additionally, Thus, Therefore, In conclusion.*\n   - USE: \"And,\" \"But,\" \"So,\" or just start the new sentence abruptly.\n\n2. **BANISH \"AI VOCABULARY\":**\n   - ABSOLUTELY FORBIDDEN WORDS: *delve, realm, tapestry, underscore, pivotal, crucial, intricate, multifaceted, leverage, utilize, symphony, testament, landscape, embrace, foster, navigate, unprecedented.*\n   - If you feel the urge to use a fancy word, replace it with a simple, punchy one (e.g., change \"utilize\" to \"use\" or \"work with\").\n\n3. **PUNCTUATION & FORMATTING:**\n   - **NO EM-DASHES (—):** AI loves them. Use commas, parentheses, or periods instead.\n   - **NO BULLET POINTS:** Write in full, flowing, somewhat messy paragraphs.\n   - **NO BOLD TEXT:** Do not bold keywords. Humans rarely do this in normal prose.\n\n4. **MAXIMIZE \"BURSTINESS\" (Rhythm Variance):**\n   - **The Rule of 3:** Never write three sentences of similar length in a row. \n   - **The Fragment:** Use at least one sentence fragment per paragraph. (e.g., \"Not really.\" or \"Just like that.\")\n   - **The Run-on:** Occasionally let a sentence run a bit longer than necessary, mimicking a human train of thought.\n\n5. **INJECT \"COGNITIVE NOISE\":**\n   - **Redundancy:** Humans repeat themselves for emphasis. It’s okay to rephrase a point immediately after making it.\n   - **Opinion/Bias:** If the text allows, inject a slight opinion or \"personality leakage.\" Avoid neutral, \"balanced\" hedging. \n   - **Colloquialism:** Use contractions (don\x27t, can\x27t, won\x27t) aggressively.\n\n6. **STORY TELLING:**\n   - Humans tend to tell / explain concepts by taking reference from their own life experiences.\n   - Humans tend to use easy grammar words, not the complex and rare ones.\n\n### INPUT CONTEXT:\n- Audience: "

/-- Template segment between `{audience}` and `{tone}`. -/
def editorTemplateTone : String := "\n- Tone: "

/-- Template segment between `{tone}` and `{purpose}`. -/
def editorTemplatePurpose : String :=
  " (Apply this tone, but keep it \"raw\" and \"unpolished\")\n- Purpose: "

/-- Template segment between `{purpose}` and `{length_change}`. -/
def editorTemplateLength : String := "\n- Length Strategy: "

/-- Template segment between `{length_change}` and `{content}`. -/
def editorTemplateContent : String := "\n\n### TEXT TO REWRITE:\n"

/-- Template segment after `{content}`; the template's single trailing
newline, removed by the `.strip()`, is already dropped here. -/
def editorTemplateTail : String :=
  "\n\n### OUTPUT INSTRUCTION:\nReturn ONLY the rewritten text. Do not output \"Here is the text\" or any intro. \nJust the raw, human-sounding content."

/-- `build_editor_prompt` (lines 103–153): the f-string template with the
five parameters interpolated.  The Python source applies `.strip()` to the
result; since the template literal begins and ends with exactly one newline
and no other leading/trailing whitespace, that strip removes precisely those
two newlines, which the segment definitions above already omit. -/
def build_editor_prompt (content audience tone purpose length_change : String) : String :=
  editorTemplateHead ++ audience ++
  editorTemplateTone ++ tone ++
  editorTemplatePurpose ++ purpose ++
  editorTemplateLength ++ length_change ++
  editorTemplateContent ++ content ++
  editorTemplateTail

/-- The prompt `/humanize` sends to the backend, as a function of the request
body `kvs` and the extracted `length_change` value: `build_editor_prompt`
applied to the request fields (f-string interpolation turns each field into a
string via `str()`, i.e. `PyVal.pyStr`). -/
def humanizePrompt (kvs : List (String × PyVal)) (length_change : PyVal) : String :=
  build_editor_prompt
    (dictGet kvs "content").pyStr
    (dictGetD kvs "audience" (.str "general")).pyStr
    (dictGetD kvs "tone" (.str "neutral")).pyStr
    (dictGetD kvs "purpose" (.str "explain")).pyStr
    length_change.pyStr

/-- The registry local to `/humanize` (lines 171–174); its `"pro"` entry
differs from the module-level `MODEL_REGISTRY`. -/
def HUMANIZE_MODEL_REGISTRY : List (String × String) :=
  [("flash", "models/gemini-2.5-flash"), ("pro", "models/gemini-3-pro-preview")]

/-- The `/humanize` handler (lines 155–210).  Returns the handler outcome and
the list of backend calls made.  Note that
`data.get("constraints", {}).get("length_change", "minimal")` (line 167) sits
outside the `try`, so an `AttributeError` from a non-dict `constraints` value
escapes, and that the success responses carry only `{"content": ...}`. -/
def humanize (data : Option (List (String × PyVal))) (backend : Backend) :
    HandlerResult × List BackendCall :=
  match data with
  | none => (.ok (400, [("error", .str "Missing \x27content\x27")]), [])
  | some kvs =>
    if kvs.isEmpty || !hasKey kvs "content" then
      (.ok (400, [("error", .str "Missing \x27content\x27")]), [])
    else
      match pyGetD (dictGetD kvs "constraints" (.dict [])) "length_change" (.str "minimal") with
      | .error e => (.error e, [])
      | .ok length_change =>
        let ai_model_key := dictGetD kvs "ai_model" (.str "flash")
        match registryLookup HUMANIZE_MODEL_REGISTRY ai_model_key with
        | .error e =>
          -- the membership test at line 176 is outside the `try`: a
          -- `TypeError` from an unhashable key escapes
          (.error e, [])
        | .ok none =>
          (.ok (400, [("error", .str "Invalid \x27ai_model\x27"),
                      ("allowed_values", registryKeysJson HUMANIZE_MODEL_REGISTRY)]), [])
        | .ok (some model_name) =>
          let prompt := humanizePrompt kvs length_change
          match backend model_name (.str prompt) with
          | .ok text =>
            (.ok (200, [("content", .str text)]), [(model_name, .str prompt)])
          | .error _ =>
            if PyVal.beq ai_model_key (.str "pro") then
              match backend "models/gemini-2.5-flash" (.str prompt) with
              | .ok text =>
                (.ok (200, [("content", .str text)]),
                 [(model_name, .str prompt), ("models/gemini-2.5-flash", .str prompt)])
              | .error _ =>
                -- the fallback call is not inside a `try`; its exception escapes
                (.error .backendFailure,
                 [(model_name, .str prompt), ("models/gemini-2.5-flash", .str prompt)])
            else
              (.ok (500, [("error", .str "Humanization failed")]), [(model_name, .str prompt)])

/-- The `docx.enum.text.WD_ALIGN_PARAGRAPH` values the handler uses. -/
inductive WD_ALIGN_PARAGRAPH where
  | LEFT
  | CENTER
  | RIGHT
deriving DecidableEq, Repr

/-- Python `s.split("\n")` on the character list of `s`: cut at every
newline, keeping empty pieces (so `"" ↦ [""]` and `"a\n" ↦ ["a", ""]`,
exactly as in Python). -/
def splitNl : List Char → List String
  | [] => [""]
  | c :: rest =>
    match splitNl rest with
    | r :: rs => if c = '\n' then "" :: r :: rs else ⟨c :: r.data⟩ :: rs
    | [] => [⟨[c]⟩]

/-- Python `text.split("\n")` — only strings have `.split`; anything else
raises an `AttributeError`. -/
def pySplit (v : PyVal) : Except PyErr (List String) :=
  match v with
  | .str s => .ok (splitNl s.data)
  | _ => .error .attributeError

/-- The request fields `/prepare_docx` extracts (lines 216–243), before the
footer-collision rule is applied: raw values with their `get` defaults.
`footer2_format` is the result of `int(footer2.get("format", 1))`. -/
structure DocxFields where
  text : PyVal
  top : PyVal
  bottom : PyVal
  left : PyVal
  right : PyVal
  header_content : PyVal
  header_align : PyVal
  footer1_content : PyVal
  footer1_align : PyVal
  footer2_page : PyVal
  footer2_align : PyVal
  footer2_format : Int
  cover_title : PyVal
  submitted_to : PyVal
  submitted_by : PyVal
deriving Repr

/-- Field extraction of `/prepare_docx` (lines 216–243), in source order; any
`.get` on a non-dict value or a non-integer `format` raises. -/
def parseDocxRequest (kvs : List (String × PyVal)) : Except PyErr DocxFields := do
  let text := dictGetD kvs "text" (.str "")
  let margins := dictGetD kvs "margins" (.dict [])
  let top ← pyGetD margins "top" (.num 1)
  let bottom ← pyGetD margins "bottom" (.num 1)
  let left ← pyGetD margins "left" (.num 1)
  let right ← pyGetD margins "right" (.num 1)
  let header := dictGetD kvs "header" (.dict [])
  let header_content ← pyGetD header "content" (.str "")
  let header_align ← pyGetD header "alignment" (.str "center")
  let footer1 := dictGetD kvs "footer1" (.dict [])
  let footer1_content ← pyGetD footer1 "content" (.str "")
  let footer1_align ← pyGetD footer1 "alignment" (.str "left")
  let footer2 := dictGetD kvs "footer2" (.dict [])
  let footer2_page ← pyGetD footer2 "page_num" (.bool false)
  let footer2_align ← pyGetD footer2 "alignment" (.str "right")
  let footer2_format ← pyInt (← pyGetD footer2 "format" (.num 1))
  let cover := dictGetD kvs "cover_page" (.dict [])
  let cover_title ← pyGetD cover "title" (.str "")
  let submitted_to ← pyGetD cover "submitted_to" (.str "")
  let submitted_by ← pyGetD cover "submitted_by" (.str "")
  .ok { text, top, bottom, left, right, header_content, header_align,
        footer1_content, footer1_align, footer2_page, footer2_align,
        footer2_format, cover_title, submitted_to, submitted_by }

/-- The assembled document, as the handler configures it: section margins,
cover-page paragraphs, header and footer paragraphs (the second footer
paragraph, carrying the PAGE field, only exists when `footer2_page` is
truthy), and the left-aligned body paragraphs. -/
structure DocxDoc where
  top_margin : PyVal
  bottom_margin : PyVal
  left_margin : PyVal
  right_margin : PyVal
  cover_paragraphs : List String
  has_page_break : Bool
  header_text : PyVal
  header_alignment : WD_ALIGN_PARAGRAPH
  footer1_alignment : WD_ALIGN_PARAGRAPH
  footer1_text : PyVal
  page_number_footer : Option WD_ALIGN_PARAGRAPH
  body_paragraphs : List String
deriving Repr

/-- Document assembly of `/prepare_docx` (lines 237–295): first the
footer-collision rule of lines 237–238, then the margin, cover, header,
footer and body construction.  `bodyLines` is the result of
`text.split("\n")`. -/
def assembleDoc (f : DocxFields) (bodyLines : List String) : DocxDoc :=
  let footer1_align :=
    if f.footer2_page.truthy && PyVal.beq f.footer2_align f.footer1_align then
      if PyVal.beq f.footer2_align (.str "right") then PyVal.str "left" else PyVal.str "right"
    else f.footer1_align
  { top_margin := f.top
    bottom_margin := f.bottom
    left_margin := f.left
    right_margin := f.right
    cover_paragraphs :=
      if f.cover_title.truthy then
        [f.cover_title.pyStr] ++
        (if f.submitted_to.truthy then ["Submitted To: " ++ f.submitted_to.pyStr] else []) ++
        (if f.submitted_by.truthy then ["Submitted By: " ++ f.submitted_by.pyStr] else [])
      else []
    has_page_break := f.cover_title.truthy
    header_text := f.header_content
    header_alignment :=
      if PyVal.beq f.header_align (.str "left") then .LEFT
      else if PyVal.beq f.header_align (.str "right") then .RIGHT
      else .CENTER
    footer1_alignment :=
      if PyVal.beq footer1_align (.str "left") then .LEFT else .RIGHT
    footer1_text := f.footer1_content
    page_number_footer :=
      if f.footer2_page.truthy then
        some (if PyVal.beq f.footer2_align (.str "left") then .LEFT else .RIGHT)
      else none
    body_paragraphs := bodyLines }

/-- The `/prepare_docx` handler (lines 212–305).  Unlike the other handlers
it never checks the parse result: a `None` body (absent or invalid JSON)
makes `data.get("text", "")` raise an `AttributeError`.  `fileId` stands for
the freshly generated `uuid.uuid4()` string. -/
def prepare_docx (data : Option (List (String × PyVal))) (fileId : String) :
    Except PyErr (DocxDoc × HttpResponse) := do
  let kvs ← match data with
    | none => Except.error PyErr.attributeError
    | some kvs => Except.ok kvs
  let f ← parseDocxRequest kvs
  let bodyLines ← pySplit f.text
  .ok (assembleDoc f bodyLines,
       (200, [("status", .str "ready"), ("file_id", .str fileId),
              ("message", .str "Document prepared successfully")]))

/-- `x` occurs verbatim as a substring of `s`. -/
def isSubstringOf (x s : String) : Prop := ∃ p q, s = p ++ x ++ q

theorem find?_eq_none_of_hasKey_false {kvs : List (String × PyVal)} {k : String}
    (h : hasKey kvs k = false) : kvs.find? (fun kv => kv.1 == k) = none :=
  List.find?_eq_none.mpr fun x hx => by
    simpa using List.any_eq_false.mp h x hx

theorem dictGetD_of_hasKey_false {kvs : List (String × PyVal)} {k : String} {d : PyVal}
    (h : hasKey kvs k = false) : dictGetD kvs k d = d := by
  simp [dictGetD, find?_eq_none_of_hasKey_false h]

theorem hasKey_cons (k' : String) (v : PyVal) (kvs : List (String × PyVal)) (k : String) :
    hasKey ((k', v) :: kvs) k = ((k' == k) || hasKey kvs k) := by
  simp [hasKey, List.any_cons]

theorem dictGet_cons (k' : String) (v : PyVal) (kvs : List (String × PyVal)) (k : String) :
    dictGet ((k', v) :: kvs) k = if (k' == k) = true then v else dictGet kvs k := by
  by_cases h : (k' == k) = true
  · simp [dictGet, List.find?_cons_of_pos _ h, h]
  · simp [dictGet, List.find?_cons_of_neg _ h, h]

theorem dictGetD_cons (k' : String) (v : PyVal) (kvs : List (String × PyVal)) (k : String)
    (d : PyVal) :
    dictGetD ((k', v) :: kvs) k d = if (k' == k) = true then v else dictGetD kvs k d := by
  by_cases h : (k' == k) = true
  · simp [dictGetD, List.find?_cons_of_pos _ h, h]
  · simp [dictGetD, List.find?_cons_of_neg _ h, h]

/-- C7: for every choice of content, audience, tone, purpose and
length-strategy strings, `build_editor_prompt` returns a string containing
all five argument values verbatim as substrings. -/
theorem build_editor_prompt_contains_params
    (content audience tone purpose lengthStrategy : String) :
    isSubstringOf content (build_editor_prompt content audience tone purpose lengthStrategy) ∧
    isSubstringOf audience (build_editor_prompt content audience tone purpose lengthStrategy) ∧
    isSubstringOf tone (build_editor_prompt content audience tone purpose lengthStrategy) ∧
    isSubstringOf purpose (build_editor_prompt content audience tone purpose lengthStrategy) ∧
    isSubstringOf lengthStrategy (build_editor_prompt content audience tone purpose lengthStrategy) := by
  unfold build_editor_prompt
  refine ⟨⟨editorTemplateHead ++ audience ++ editorTemplateTone ++ tone ++
            editorTemplatePurpose ++ purpose ++ editorTemplateLength ++ lengthStrategy ++
            editorTemplateContent, editorTemplateTail, ?_⟩,
          ⟨editorTemplateHead, editorTemplateTone ++ tone ++ editorTemplatePurpose ++ purpose ++
            editorTemplateLength ++ lengthStrategy ++ editorTemplateContent ++ content ++
            editorTemplateTail, ?_⟩,
          ⟨editorTemplateHead ++ audience ++ editorTemplateTone,
            editorTemplatePurpose ++ purpose ++ editorTemplateLength ++ lengthStrategy ++
            editorTemplateContent ++ content ++ editorTemplateTail, ?_⟩,
          ⟨editorTemplateHead ++ audience ++ editorTemplateTone ++ tone ++
            editorTemplatePurpose, editorTemplateLength ++ lengthStrategy ++
            editorTemplateContent ++ content ++ editorTemplateTail, ?_⟩,
          ⟨editorTemplateHead ++ audience ++ editorTemplateTone ++ tone ++
            editorTemplatePurpose ++ purpose ++ editorTemplateLength,
            editorTemplateContent ++ content ++ editorTemplateTail, ?_⟩⟩ <;>
    simp [String.append_assoc]

/-- C9: a `/prepare_docx` request whose body is absent or not valid JSON does
not get a 400 validation response: the handler dereferences the `None` parse
result and raises an uncaught `AttributeError`, while `generate`, `humanize`
and `score` all answer `None` bodies with a 400. -/
theorem prepare_docx_none_body_raises :
    (∀ fileId, prepare_docx none fileId = .error PyErr.attributeError) ∧
    (∀ backend, (generate none backend).1 =
      .ok (400, [("error", PyVal.str "Request body must be JSON")])) ∧
    (∀ backend, (humanize none backend).1 =
      .ok (400, [("error", PyVal.str "Missing \x27content\x27")])) ∧
    (∀ sapling, score none sapling =
      .ok (400, [("error", PyVal.str "Missing \x27text\x27")])) :=
  ⟨fun _ => rfl, fun _ => rfl, fun _ => rfl, fun _ => rfl⟩


/-- C5: on a request carrying `text`, a successful Sapling response
`{"score": 0.73}` yields `200 {"score": 73}` (the fraction multiplied by 100
and truncated to an integer), and a successful response without a `"score"`
field yields 502. -/
theorem score_point73_and_missing (kvs : List (String × PyVal))
    (h1 : kvs.isEmpty = false) (h2 : hasKey kvs "text" = true) :
    score (some kvs) (.ok [("score", PyVal.num (73 / 100))]) =
      .ok (200, [("score", PyVal.num 73)]) ∧
    score (some kvs) (.ok []) =
      .ok (502, [("error", PyVal.str "Invalid response from Sapling")]) := by
  constructor
  · simp only [score, scoreOfRaw, h1, h2, Bool.not_true, Bool.or_false, if_false,
      dictGet, List.find?, pyMulNat, pyInt]
    norm_num [ratTrunc]
  · simp [score, h1, h2, dictGet, List.find?]

/-- C5 witness: the two behaviours at the concrete body `{"text": "x"}`. -/
theorem score_point73_and_missing_witness :
    score (some [("text", PyVal.str "x")]) (.ok [("score", PyVal.num (73 / 100))]) =
      .ok (200, [("score", PyVal.num 73)]) ∧
    score (some [("text", PyVal.str "x")]) (.ok []) =
      .ok (502, [("error", PyVal.str "Invalid response from Sapling")]) :=
  score_point73_and_missing [("text", PyVal.str "x")] rfl rfl

/-- C4: on a valid `/generate` request with a non-empty prompt and
`ai_model = "flash"`, exactly one backend invocation occurs (the trace is
the single call to `models/gemini-2.5-flash`, whether it succeeds or fails,
so no fallback is ever attempted), and on success the response's
`model_used` equals `"flash"`. -/
theorem generate_flash_single_call (kvs : List (String × PyVal)) (backend : Backend)
    (h1 : kvs.isEmpty = false)
    (h2 : (dictGet kvs "prompt").truthy = true)
    (h3 : dictGet kvs "ai_model" = PyVal.str "flash") :
    (generate (some kvs) backend).2 = [("models/gemini-2.5-flash", dictGet kvs "prompt")] ∧
    ∀ t, backend "models/gemini-2.5-flash" (dictGet kvs "prompt") = .ok t →
      (generate (some kvs) backend).1 =
        .ok (200, [("model_used", PyVal.str "flash"), ("output", PyVal.str t)]) := by
  have hreg : registryLookup MODEL_REGISTRY (PyVal.str "flash") =
      .ok (some "models/gemini-2.5-flash") := rfl
  have hbeq : PyVal.beq (PyVal.str "flash") (PyVal.str "pro") = false := rfl
  cases hb : backend "models/gemini-2.5-flash" (dictGet kvs "prompt") with
  | ok t =>
    refine ⟨?_, ?_⟩
    · simp [generate, h1, h2, h3, hreg, hb]
    · intro t' ht; cases ht
      simp [generate, h1, h2, h3, hreg, hb]
  | error e =>
    refine ⟨?_, ?_⟩
    · simp [generate, h1, h2, h3, hreg, hb, hbeq]
    · intro t ht; cases ht

/-- C4 witness: `{"prompt": "hi", "ai_model": "flash"}` against a succeeding
backend. -/
theorem generate_flash_single_call_witness :
    (generate (some [("prompt", PyVal.str "hi"), ("ai_model", PyVal.str "flash")])
        (fun _ _ => .ok "out")).2 =
      [("models/gemini-2.5-flash", PyVal.str "hi")] ∧
    (generate (some [("prompt", PyVal.str "hi"), ("ai_model", PyVal.str "flash")])
        (fun _ _ => .ok "out")).1 =
      .ok (200, [("model_used", PyVal.str "flash"), ("output", PyVal.str "out")]) :=
  ⟨(generate_flash_single_call [("prompt", PyVal.str "hi"), ("ai_model", PyVal.str "flash")]
      (fun _ _ => .ok "out") rfl rfl rfl).1,
   (generate_flash_single_call [("prompt", PyVal.str "hi"), ("ai_model", PyVal.str "flash")]
      (fun _ _ => .ok "out") rfl rfl rfl).2 "out" rfl⟩

/-- C3 counterexample: an `ai_model` that is a JSON array — certainly not a
key of the registry — does not get the 400 with `allowed_values`: Python
hashes the key for `ai_model_key not in MODEL_REGISTRY` (lines 32, 176,
outside any `try`), so an unhashable value raises an uncaught `TypeError`
(surfaced by Flask as 500) on both endpoints, with no backend call. -/
theorem invalid_model_list_raises_typeerror :
    generate (some [("prompt", PyVal.str "p"), ("ai_model", PyVal.list [])])
        (fun _ _ => .error ()) =
      (.error PyErr.typeError, []) ∧
    humanize (some [("content", PyVal.str "c"), ("ai_model", PyVal.list [])])
        (fun _ _ => .error ()) =
      (.error PyErr.typeError, []) :=
  ⟨rfl, rfl⟩

/-- C3 amended: an `ai_model` value that is hashable (absent, null, a bool,
a number, or a string) and not a key of the endpoint's registry makes
`generate` (resp. `humanize`) answer 400 with `allowed_values` exactly the
registry's key list; an unhashable `ai_model` (a JSON array or object)
instead raises an uncaught `TypeError` from the membership test itself.
Either way the request is rejected with an empty backend-call trace, before
any backend call. -/
theorem invalid_model_key_rejected :
    (∀ (kvs : List (String × PyVal)) (backend : Backend),
      kvs.isEmpty = false → (dictGet kvs "prompt").truthy = true →
      registryLookup MODEL_REGISTRY (dictGet kvs "ai_model") = .ok none →
      generate (some kvs) backend =
        (.ok (400, [("error", PyVal.str "Invalid \x27ai_model\x27"),
                    ("allowed_values", registryKeysJson MODEL_REGISTRY)]), [])) ∧
    (∀ (kvs : List (String × PyVal)) (backend : Backend) (lc : PyVal),
      kvs.isEmpty = false → hasKey kvs "content" = true →
      pyGetD (dictGetD kvs "constraints" (.dict [])) "length_change" (.str "minimal") = .ok lc →
      registryLookup HUMANIZE_MODEL_REGISTRY (dictGetD kvs "ai_model" (.str "flash")) = .ok none →
      humanize (some kvs) backend =
        (.ok (400, [("error", PyVal.str "Invalid \x27ai_model\x27"),
                    ("allowed_values", registryKeysJson HUMANIZE_MODEL_REGISTRY)]), [])) ∧
    (∀ (kvs : List (String × PyVal)) (backend : Backend) (e : PyErr),
      kvs.isEmpty = false → (dictGet kvs "prompt").truthy = true →
      registryLookup MODEL_REGISTRY (dictGet kvs "ai_model") = .error e →
      generate (some kvs) backend = (.error e, [])) ∧
    (∀ (kvs : List (String × PyVal)) (backend : Backend) (lc : PyVal) (e : PyErr),
      kvs.isEmpty = false → hasKey kvs "content" = true →
      pyGetD (dictGetD kvs "constraints" (.dict [])) "length_change" (.str "minimal") = .ok lc →
      registryLookup HUMANIZE_MODEL_REGISTRY (dictGetD kvs "ai_model" (.str "flash")) = .error e →
      humanize (some kvs) backend = (.error e, [])) := by
  refine ⟨?_, ?_, ?_, ?_⟩
  · intro kvs backend h1 h2 hreg
    simp [generate, h1, h2, hreg]
  · intro kvs backend lc h1 h2 hlc hreg
    simp [humanize, h1, h2, hlc, hreg]
  · intro kvs backend e h1 h2 hreg
    simp [generate, h1, h2, hreg]
  · intro kvs backend lc e h1 h2 hlc hreg
    simp [humanize, h1, h2, hlc, hreg]

/-- C3 witness: the unknown string key `"turbo"` gets the 400 with the
registry's keys on both endpoints, and the unhashable key `[]` gets the
uncaught `TypeError` on both. -/
theorem invalid_model_key_rejected_witness :
    generate (some [("prompt", PyVal.str "p"), ("ai_model", PyVal.str "turbo")])
        (fun _ _ => .error ()) =
      (.ok (400, [("error", PyVal.str "Invalid \x27ai_model\x27"),
                  ("allowed_values", registryKeysJson MODEL_REGISTRY)]), []) ∧
    humanize (some [("content", PyVal.str "c"), ("ai_model", PyVal.str "turbo")])
        (fun _ _ => .error ()) =
      (.ok (400, [("error", PyVal.str "Invalid \x27ai_model\x27"),
                  ("allowed_values", registryKeysJson HUMANIZE_MODEL_REGISTRY)]), []) ∧
    generate (some [("prompt", PyVal.str "p"), ("ai_model", PyVal.list [PyVal.num 1])])
        (fun _ _ => .error ()) = (.error PyErr.typeError, []) ∧
    humanize (some [("content", PyVal.str "c"), ("ai_model", PyVal.list [PyVal.num 1])])
        (fun _ _ => .error ()) = (.error PyErr.typeError, []) :=
  ⟨invalid_model_key_rejected.1 _ _ rfl rfl rfl,
   invalid_model_key_rejected.2.1 _ _ (PyVal.str "minimal") rfl rfl rfl rfl,
   invalid_model_key_rejected.2.2.1 _ _ PyErr.typeError rfl rfl rfl,
   invalid_model_key_rejected.2.2.2 _ _ (PyVal.str "minimal") PyErr.typeError rfl rfl rfl rfl⟩

/-- C1 counterexample: a `/humanize` request with `ai_model = "pro"` whose
primary call fails and whose fallback call succeeds answers 200, but its body
is only `{"content": ...}` — it carries no `model_used` key at all, so the
claim that the endpoint returns `modelUsed = "flash_fallback"` is false for
`humanize` (which the claim's sources include). -/
theorem humanize_fallback_has_no_model_used :
    (humanize (some [("content", PyVal.str "hi"), ("ai_model", PyVal.str "pro")])
        (fun m _ => if m == "models/gemini-2.5-flash" then .ok "fb" else .error ())).1 =
      .ok (200, [("content", PyVal.str "fb")]) ∧
    List.lookup "model_used" [("content", PyVal.str "fb")] = none :=
  ⟨rfl, rfl⟩

/-- C1 amended: when `ai_model = "pro"` and the primary backend call fails,
both `/generate` and `/humanize` make exactly one fallback invocation against
the hardcoded `models/gemini-2.5-flash`; on fallback success `generate`
returns 200 with `model_used = "flash_fallback"` and the fallback's output,
while `humanize` returns 200 carrying only the fallback's output text (its
body has no model-used marker). -/
theorem pro_primary_failure_fallback :
    (∀ (kvs : List (String × PyVal)) (backend : Backend),
      kvs.isEmpty = false → (dictGet kvs "prompt").truthy = true →
      dictGet kvs "ai_model" = PyVal.str "pro" →
      backend "models/gemini-3-flash-preview" (dictGet kvs "prompt") = .error () →
      (generate (some kvs) backend).2 =
        [("models/gemini-3-flash-preview", dictGet kvs "prompt"),
         ("models/gemini-2.5-flash", dictGet kvs "prompt")] ∧
      ∀ t, backend "models/gemini-2.5-flash" (dictGet kvs "prompt") = .ok t →
        (generate (some kvs) backend).1 =
          .ok (200, [("model_used", PyVal.str "flash_fallback"), ("output", PyVal.str t)])) ∧
    (∀ (kvs : List (String × PyVal)) (backend : Backend) (lc : PyVal),
      kvs.isEmpty = false → hasKey kvs "content" = true →
      pyGetD (dictGetD kvs "constraints" (.dict [])) "length_change" (.str "minimal") = .ok lc →
      dictGetD kvs "ai_model" (.str "flash") = PyVal.str "pro" →
      backend "models/gemini-3-pro-preview" (.str (humanizePrompt kvs lc)) = .error () →
      (humanize (some kvs) backend).2 =
        [("models/gemini-3-pro-preview", .str (humanizePrompt kvs lc)),
         ("models/gemini-2.5-flash", .str (humanizePrompt kvs lc))] ∧
      ∀ t, backend "models/gemini-2.5-flash" (.str (humanizePrompt kvs lc)) = .ok t →
        (humanize (some kvs) backend).1 = .ok (200, [("content", PyVal.str t)])) := by
  have hregG : registryLookup MODEL_REGISTRY (PyVal.str "pro") =
      .ok (some "models/gemini-3-flash-preview") := rfl
  have hregH : registryLookup HUMANIZE_MODEL_REGISTRY (PyVal.str "pro") =
      .ok (some "models/gemini-3-pro-preview") := rfl
  have hbeq : PyVal.beq (PyVal.str "pro") (PyVal.str "pro") = true := rfl
  constructor
  · intro kvs backend h1 h2 h3 hfail
    cases hb : backend "models/gemini-2.5-flash" (dictGet kvs "prompt") with
    | ok t =>
      refine ⟨?_, ?_⟩
      · simp [generate, h1, h2, h3, hregG, hfail, hb, hbeq]
      · intro t' ht; cases ht
        simp [generate, h1, h2, h3, hregG, hfail, hb, hbeq]
    | error e =>
      refine ⟨?_, ?_⟩
      · simp [generate, h1, h2, h3, hregG, hfail, hb, hbeq]
      · intro t ht; cases ht
  · intro kvs backend lc h1 h2 hlc h3 hfail
    cases hb : backend "models/gemini-2.5-flash" (.str (humanizePrompt kvs lc)) with
    | ok t =>
      refine ⟨?_, ?_⟩
      · simp [humanize, h1, h2, hlc, h3, hregH, hfail, hb, hbeq]
      · intro t' ht; cases ht
        simp [humanize, h1, h2, hlc, h3, hregH, hfail, hb, hbeq]
    | error e =>
      refine ⟨?_, ?_⟩
      · simp [humanize, h1, h2, hlc, h3, hregH, hfail, hb, hbeq]
      · intro t ht; cases ht

/-- C1 witness: `/generate` with `{"prompt": "hi", "ai_model": "pro"}`
against a backend that fails on the pro model and succeeds on the fallback. -/
theorem pro_primary_failure_fallback_witness :
    (generate (some [("prompt", PyVal.str "hi"), ("ai_model", PyVal.str "pro")])
        (fun m _ => if m == "models/gemini-2.5-flash" then .ok "fb" else .error ())).2 =
      [("models/gemini-3-flash-preview", PyVal.str "hi"),
       ("models/gemini-2.5-flash", PyVal.str "hi")] ∧
    (generate (some [("prompt", PyVal.str "hi"), ("ai_model", PyVal.str "pro")])
        (fun m _ => if m == "models/gemini-2.5-flash" then .ok "fb" else .error ())).1 =
      .ok (200, [("model_used", PyVal.str "flash_fallback"), ("output", PyVal.str "fb")]) :=
  ⟨(pro_primary_failure_fallback.1 [("prompt", PyVal.str "hi"), ("ai_model", PyVal.str "pro")]
      (fun m _ => if m == "models/gemini-2.5-flash" then .ok "fb" else .error ())
      rfl rfl rfl rfl).1,
   (pro_primary_failure_fallback.1 [("prompt", PyVal.str "hi"), ("ai_model", PyVal.str "pro")]
      (fun m _ => if m == "models/gemini-2.5-flash" then .ok "fb" else .error ())
      rfl rfl rfl rfl).2 "fb" rfl⟩

/-- C2: when `ai_model = "pro"` and both the primary and the single fallback
backend call fail, both endpoints surface HTTP 500 (the escaping exception is
turned into a 500 by Flask) and the backend-call trace is exactly the two
calls — no further invocation occurs. -/
theorem pro_double_failure_500 :
    (∀ (kvs : List (String × PyVal)) (backend : Backend),
      kvs.isEmpty = false → (dictGet kvs "prompt").truthy = true →
      dictGet kvs "ai_model" = PyVal.str "pro" →
      backend "models/gemini-3-flash-preview" (dictGet kvs "prompt") = .error () →
      backend "models/gemini-2.5-flash" (dictGet kvs "prompt") = .error () →
      flaskStatus (generate (some kvs) backend).1 = 500 ∧
      (generate (some kvs) backend).2 =
        [("models/gemini-3-flash-preview", dictGet kvs "prompt"),
         ("models/gemini-2.5-flash", dictGet kvs "prompt")]) ∧
    (∀ (kvs : List (String × PyVal)) (backend : Backend) (lc : PyVal),
      kvs.isEmpty = false → hasKey kvs "content" = true →
      pyGetD (dictGetD kvs "constraints" (.dict [])) "length_change" (.str "minimal") = .ok lc →
      dictGetD kvs "ai_model" (.str "flash") = PyVal.str "pro" →
      backend "models/gemini-3-pro-preview" (.str (humanizePrompt kvs lc)) = .error () →
      backend "models/gemini-2.5-flash" (.str (humanizePrompt kvs lc)) = .error () →
      flaskStatus (humanize (some kvs) backend).1 = 500 ∧
      (humanize (some kvs) backend).2 =
        [("models/gemini-3-pro-preview", .str (humanizePrompt kvs lc)),
         ("models/gemini-2.5-flash", .str (humanizePrompt kvs lc))]) := by
  have hregG : registryLookup MODEL_REGISTRY (PyVal.str "pro") =
      .ok (some "models/gemini-3-flash-preview") := rfl
  have hregH : registryLookup HUMANIZE_MODEL_REGISTRY (PyVal.str "pro") =
      .ok (some "models/gemini-3-pro-preview") := rfl
  have hbeq : PyVal.beq (PyVal.str "pro") (PyVal.str "pro") = true := rfl
  constructor
  · intro kvs backend h1 h2 h3 hf1 hf2
    constructor
    · simp [generate, flaskStatus, h1, h2, h3, hregG, hf1, hf2, hbeq]
    · simp [generate, h1, h2, h3, hregG, hf1, hf2, hbeq]
  · intro kvs backend lc h1 h2 hlc h3 hf1 hf2
    constructor
    · simp [humanize, flaskStatus, h1, h2, hlc, h3, hregH, hf1, hf2, hbeq]
    · simp [humanize, h1, h2, hlc, h3, hregH, hf1, hf2, hbeq]

/-- C2 witness: both endpoints with `ai_model = "pro"` against a backend that
always fails: observed status 500 and exactly two calls. -/
theorem pro_double_failure_500_witness :
    (flaskStatus (generate (some [("prompt", PyVal.str "hi"), ("ai_model", PyVal.str "pro")])
        (fun _ _ => .error ())).1 = 500 ∧
     (generate (some [("prompt", PyVal.str "hi"), ("ai_model", PyVal.str "pro")])
        (fun _ _ => .error ())).2 =
       [("models/gemini-3-flash-preview", PyVal.str "hi"),
        ("models/gemini-2.5-flash", PyVal.str "hi")]) ∧
    (flaskStatus (humanize (some [("content", PyVal.str "hi"), ("ai_model", PyVal.str "pro")])
        (fun _ _ => .error ())).1 = 500) :=
  ⟨pro_double_failure_500.1 [("prompt", PyVal.str "hi"), ("ai_model", PyVal.str "pro")]
      (fun _ _ => .error ()) rfl rfl rfl rfl rfl,
   (pro_double_failure_500.2 [("content", PyVal.str "hi"), ("ai_model", PyVal.str "pro")]
      (fun _ _ => .error ()) (PyVal.str "minimal") rfl rfl rfl rfl rfl rfl).1⟩

/-- C8: a `/humanize` request without an `ai_model` field behaves exactly as
if `ai_model = "flash"` had been supplied; in particular the flash model is
the one invoked, and on backend failure no fallback is attempted — the
handler answers 500 after that single call. -/
theorem humanize_default_model_is_flash :
    (∀ (kvs : List (String × PyVal)) (backend : Backend),
      hasKey kvs "ai_model" = false →
      humanize (some kvs) backend =
        humanize (some (("ai_model", PyVal.str "flash") :: kvs)) backend) ∧
    (∀ (kvs : List (String × PyVal)) (backend : Backend) (lc : PyVal),
      kvs.isEmpty = false → hasKey kvs "content" = true →
      hasKey kvs "ai_model" = false →
      pyGetD (dictGetD kvs "constraints" (.dict [])) "length_change" (.str "minimal") = .ok lc →
      backend "models/gemini-2.5-flash" (.str (humanizePrompt kvs lc)) = .error () →
      humanize (some kvs) backend =
        (.ok (500, [("error", PyVal.str "Humanization failed")]),
         [("models/gemini-2.5-flash", .str (humanizePrompt kvs lc))])) := by
  have e1 : (("ai_model" : String) == "content") = false := rfl
  have e2 : (("ai_model" : String) == "audience") = false := rfl
  have e3 : (("ai_model" : String) == "tone") = false := rfl
  have e4 : (("ai_model" : String) == "purpose") = false := rfl
  have e5 : (("ai_model" : String) == "constraints") = false := rfl
  have e6 : (("ai_model" : String) == "ai_model") = true := rfl
  have hreg : registryLookup HUMANIZE_MODEL_REGISTRY (PyVal.str "flash") =
      .ok (some "models/gemini-2.5-flash") := rfl
  have hbeq : PyVal.beq (PyVal.str "flash") (PyVal.str "pro") = false := rfl
  constructor
  · intro kvs backend hkey
    have hd : dictGetD kvs "ai_model" (PyVal.str "flash") = PyVal.str "flash" :=
      dictGetD_of_hasKey_false hkey
    cases kvs with
    | nil => rfl
    | cons head tail =>
      simp only [humanize, humanizePrompt, hasKey_cons, dictGet_cons, dictGetD_cons,
        e1, e2, e3, e4, e5, e6, hd, hreg, hbeq, List.isEmpty_cons, if_true, if_false,
        Bool.false_or, Bool.or_false]
      simp
  · intro kvs backend lc h1 h2 hkey hlc hfail
    have hd : dictGetD kvs "ai_model" (PyVal.str "flash") = PyVal.str "flash" :=
      dictGetD_of_hasKey_false hkey
    simp [humanize, h1, h2, hlc, hd, hreg, hfail, hbeq]

/-- C8 witness: `{"content": "hi"}` (no `ai_model`) against an always-failing
backend: identical to the explicit-flash request, and a 500 after the single
flash call. -/
theorem humanize_default_model_is_flash_witness :
    humanize (some [("content", PyVal.str "hi")]) (fun _ _ => .error ()) =
      humanize (some [("ai_model", PyVal.str "flash"), ("content", PyVal.str "hi")])
        (fun _ _ => .error ()) ∧
    humanize (some [("content", PyVal.str "hi")]) (fun _ _ => .error ()) =
      (.ok (500, [("error", PyVal.str "Humanization failed")]),
       [("models/gemini-2.5-flash",
         .str (humanizePrompt [("content", PyVal.str "hi")] (PyVal.str "minimal")))]) :=
  ⟨humanize_default_model_is_flash.1 [("content", PyVal.str "hi")] (fun _ _ => .error ()) rfl,
   humanize_default_model_is_flash.2 [("content", PyVal.str "hi")] (fun _ _ => .error ())
     (PyVal.str "minimal") rfl rfl rfl rfl rfl⟩

/-- C6 counterexample: footer1 and the page-number footer2 both request
`"center"`; the collision rule fires and sets footer1 to `"right"`, which the
assembly renders as RIGHT — the very side on which the page-number footer is
rendered (any non-"left" alignment renders RIGHT).  So footer1 is not flipped
to "the opposite side": the two footers still collide. -/
theorem footer_collision_center_not_opposite :
    prepare_docx (some [("footer1", PyVal.dict [("alignment", PyVal.str "center")]),
                        ("footer2", PyVal.dict [("page_num", PyVal.bool true),
                                                ("alignment", PyVal.str "center")])]) "fid" =
      .ok ({ top_margin := PyVal.num 1, bottom_margin := PyVal.num 1,
             left_margin := PyVal.num 1, right_margin := PyVal.num 1,
             cover_paragraphs := [], has_page_break := false,
             header_text := PyVal.str "", header_alignment := .CENTER,
             footer1_alignment := .RIGHT, footer1_text := PyVal.str "",
             page_number_footer := some .RIGHT, body_paragraphs := [""] },
           (200, [("status", PyVal.str "ready"), ("file_id", PyVal.str "fid"),
                  ("message", PyVal.str "Document prepared successfully")])) := rfl

/-- C6 amended: when footer2 is a page-number footer and requests the same
side as footer1, footer1 is silently moved to the opposite side for the
sided alignments: right/right puts footer1 at LEFT (with the page number at
RIGHT) and left/left puts footer1 at RIGHT (with the page number at LEFT).
For equal non-sided alignments (e.g. center/center) footer1 is set to
"right", which renders on the same side as the page-number footer. -/
theorem footer_collision_flips_sided (kvs : List (String × PyVal)) (fid : String)
    (doc : DocxDoc) (resp : HttpResponse) (f : DocxFields)
    (hp : prepare_docx (some kvs) fid = .ok (doc, resp))
    (hf : parseDocxRequest kvs = .ok f)
    (hpage : f.footer2_page.truthy = true) :
    (f.footer2_align = PyVal.str "right" → f.footer1_align = PyVal.str "right" →
      doc.footer1_alignment = .LEFT ∧ doc.page_number_footer = some .RIGHT) ∧
    (f.footer2_align = PyVal.str "left" → f.footer1_align = PyVal.str "left" →
      doc.footer1_alignment = .RIGHT ∧ doc.page_number_footer = some .LEFT) := by
  have brr : PyVal.beq (PyVal.str "right") (PyVal.str "right") = true := rfl
  have brl : PyVal.beq (PyVal.str "right") (PyVal.str "left") = false := rfl
  have bll : PyVal.beq (PyVal.str "left") (PyVal.str "left") = true := rfl
  have blr : PyVal.beq (PyVal.str "left") (PyVal.str "right") = false := rfl
  simp only [prepare_docx, bind, Except.instMonad, Except.bind, hf] at hp
  cases hsplit : pySplit f.text with
  | error e => rw [hsplit] at hp; cases hp
  | ok ls =>
    rw [hsplit] at hp
    simp only [Except.ok.injEq, Prod.mk.injEq] at hp
    obtain ⟨hdoc, -⟩ := hp
    subst hdoc
    constructor
    · intro ha2 ha1
      constructor
      · simp [assembleDoc, hpage, ha1, ha2, brr, brl, bll, blr]
      · simp [assembleDoc, hpage, ha2, brr, brl, bll, blr]
    · intro ha2 ha1
      constructor
      · simp [assembleDoc, hpage, ha1, ha2, brr, brl, bll, blr]
      · simp [assembleDoc, hpage, ha2, brr, brl, bll, blr]

/-- C6 witness: the right/right collision at a concrete request — footer1 is
placed at LEFT and the page-number footer at RIGHT. -/
theorem footer_collision_flips_sided_witness :
    prepare_docx (some [("footer1", PyVal.dict [("alignment", PyVal.str "right")]),
                        ("footer2", PyVal.dict [("page_num", PyVal.bool true),
                                                ("alignment", PyVal.str "right")])]) "fid" =
      .ok ({ top_margin := PyVal.num 1, bottom_margin := PyVal.num 1,
             left_margin := PyVal.num 1, right_margin := PyVal.num 1,
             cover_paragraphs := [], has_page_break := false,
             header_text := PyVal.str "", header_alignment := .CENTER,
             footer1_alignment := .LEFT, footer1_text := PyVal.str "",
             page_number_footer := some .RIGHT, body_paragraphs := [""] },
           (200, [("status", PyVal.str "ready"), ("file_id", PyVal.str "fid"),
                  ("message", PyVal.str "Document prepared successfully")])) ∧
    ({ top_margin := PyVal.num 1, bottom_margin := PyVal.num 1,
       left_margin := PyVal.num 1, right_margin := PyVal.num 1,
       cover_paragraphs := [], has_page_break := false,
       header_text := PyVal.str "", header_alignment := .CENTER,
       footer1_alignment := .LEFT, footer1_text := PyVal.str "",
       page_number_footer := some .RIGHT, body_paragraphs := [""] } : DocxDoc).footer1_alignment
        = .LEFT ∧
    ({ top_margin := PyVal.num 1, bottom_margin := PyVal.num 1,
       left_margin := PyVal.num 1, right_margin := PyVal.num 1,
       cover_paragraphs := [], has_page_break := false,
       header_text := PyVal.str "", header_alignment := .CENTER,
       footer1_alignment := .LEFT, footer1_text := PyVal.str "",
       page_number_footer := some .RIGHT, body_paragraphs := [""] } : DocxDoc).page_number_footer
        = some .RIGHT :=
  ⟨rfl,
   (footer_collision_flips_sided
      [("footer1", PyVal.dict [("alignment", PyVal.str "right")]),
       ("footer2", PyVal.dict [("page_num", PyVal.bool true),
                               ("alignment", PyVal.str "right")])] "fid"
      { top_margin := PyVal.num 1, bottom_margin := PyVal.num 1,
        left_margin := PyVal.num 1, right_margin := PyVal.num 1,
        cover_paragraphs := [], has_page_break := false,
        header_text := PyVal.str "", header_alignment := .CENTER,
        footer1_alignment := .LEFT, footer1_text := PyVal.str "",
        page_number_footer := some .RIGHT, body_paragraphs := [""] }
      (200, [("status", PyVal.str "ready"), ("file_id", PyVal.str "fid"),
             ("message", PyVal.str "Document prepared successfully")])
      { text := PyVal.str "", top := PyVal.num 1, bottom := PyVal.num 1, left := PyVal.num 1,
        right := PyVal.num 1, header_content := PyVal.str "", header_align := PyVal.str "center",
        footer1_content := PyVal.str "", footer1_align := PyVal.str "right",
        footer2_page := PyVal.bool true, footer2_align := PyVal.str "right", footer2_format := 1,
        cover_title := PyVal.str "", submitted_to := PyVal.str "", submitted_by := PyVal.str "" }
      rfl rfl rfl).1 rfl rfl⟩

theorem scoreOfRaw_ne_502 (v : PyVal) (body : List (String × PyVal)) :
    scoreOfRaw v ≠ .ok (502, body) := by
  unfold scoreOfRaw
  cases hpm : pyMulNat v 100 with
  | error e => simp
  | ok w =>
    cases hpi : pyInt w with
    | error e => simp [hpi]
    | ok n => simp [hpi]

set_option maxRecDepth 40000 in
set_option maxHeartbeats 40000000 in
theorem scoreOfRaw_073 : scoreOfRaw (PyVal.str "0.73") = .error PyErr.valueError := by rfl

set_option maxRecDepth 40000 in
/-- C10 counterexample: a successful upstream response whose `"score"` field
holds the string `"1"` does not make the handler raise: Python string
repetition turns `"1" * 100` into a 100-digit integer literal, `int()`
parses it, and the handler returns 200 with that huge integer as the score. -/
theorem score_string_one_returns_200 :
    score (some [("text", PyVal.str "t")]) (.ok [("score", PyVal.str "1")]) =
      .ok (200, [("score", PyVal.num
        ((1111111111111111111111111111111111111111111111111111111111111111111111111111111111111111111111111111 : ℤ) : ℚ))]) := by
  rfl

/-- C10 amended: the 502 branch of `/score` covers only an absent (or null)
`"score"` field and the `except` clause catches only request-level
exceptions, so a present non-null score value is never answered with 502;
for a value on which `int(value * 100)` raises — e.g. the string `"0.73"`,
whose 100-fold repetition is not an integer literal — the handler raises an
uncaught exception, while for some strings (e.g. `"1"`) the repetition
parses and a 200 is returned instead. -/
theorem score_nonnumeric_never_502 :
    (∀ (kvs : List (String × PyVal)) (v : PyVal),
      kvs.isEmpty = false → hasKey kvs "text" = true → v ≠ PyVal.null →
      ∀ body, score (some kvs) (.ok [("score", v)]) ≠ .ok (502, body)) ∧
    (∀ (kvs : List (String × PyVal)),
      kvs.isEmpty = false → hasKey kvs "text" = true →
      score (some kvs) (.ok [("score", PyVal.str "0.73")]) = .error PyErr.valueError) := by
  constructor
  · intro kvs v h1 h2 hv body
    have hdg : dictGet [("score", v)] "score" = v := by simp [dictGet, List.find?]
    have hred : score (some kvs) (.ok [("score", v)]) = scoreOfRaw v := by
      cases v with
      | null => exact absurd rfl hv
      | bool b => simp [score, h1, h2, hdg]
      | num q => simp [score, h1, h2, hdg]
      | str s => simp [score, h1, h2, hdg]
      | list xs => simp [score, h1, h2, hdg]
      | dict d => simp [score, h1, h2, hdg]
    rw [hred]
    exact scoreOfRaw_ne_502 v body
  · intro kvs h1 h2
    have hdg : dictGet [("score", PyVal.str "0.73")] "score" = PyVal.str "0.73" := rfl
    have hred : score (some kvs) (.ok [("score", PyVal.str "0.73")]) =
        scoreOfRaw (PyVal.str "0.73") := by simp [score, h1, h2, hdg]
    rw [hred, scoreOfRaw_073]

/-- C10 witness: at the body `{"text": "t"}`, the upstream score `"0.73"`
ends in an uncaught `ValueError`, and the upstream score `2` is not answered
with the 502 invalid-response error. -/
theorem score_nonnumeric_never_502_witness :
    score (some [("text", PyVal.str "t")]) (.ok [("score", PyVal.str "0.73")]) =
      .error PyErr.valueError ∧
    score (some [("text", PyVal.str "t")]) (.ok [("score", PyVal.num 2)]) ≠
      .ok (502, [("error", PyVal.str "Invalid response from Sapling")]) :=
  ⟨score_nonnumeric_never_502.2 [("text", PyVal.str "t")] rfl rfl,
   score_nonnumeric_never_502.1 [("text", PyVal.str "t")] (PyVal.num 2) rfl rfl
     (fun h => PyVal.noConfusion h) [("error", PyVal.str "Invalid response from Sapling")]⟩
